import Mathlib

/-!
Shallow embedding of `src/main.py` (esp32-backend): an HTTP server holding an
in-memory `HouseState` (doors, lights, PIR motion sensor, ultrasonic sensor,
DHT climate sensor, safe-mode flag) whose handlers mutate that state and
optionally forward commands to an ESP32 controller.

Modelling choices:
* timestamps (`datetime.utcnow()`) become `Nat`: every handler takes the
  current time `t` as an explicit argument, standing for the value `now()`
  returns during that request;
* the Python `Dict[str, DoorState]` / `Dict[str, LightState]` become
  association lists `List (String × _)`; `state.doors["principal"]` becomes a
  `List.lookup` that can fail (as the Python lookup raises `KeyError` on a
  missing key), so handlers touching a keyed entry return `Option`;
* the float payloads (`distance_cm`, `temperature`, `humidity`) are stored
  and echoed back verbatim, never computed with, so they are embedded as `ℚ`;
* the `requests.get` call inside `send_command_to_esp` may raise; its outcome
  is an explicit `ForwardOutcome` argument, and the `try/except` is the match
  that swallows the error.
-/

namespace Esp32

/-- Python `class DoorState(BaseModel)`: name, is_open, last_update. -/
structure DoorState where
  name : String
  is_open : Bool
  last_update : Nat
  deriving DecidableEq, Repr

/-- Python `class LightState(BaseModel)`: room (one of cocina/sala/dorm), is_on, last_update. -/
structure LightState where
  room : String
  is_on : Bool
  last_update : Nat
  deriving DecidableEq, Repr

/-- Python `class PirState(BaseModel)`: active, last_update. -/
structure PirState where
  active : Bool
  last_update : Nat
  deriving DecidableEq, Repr

/-- Python `class UltraState(BaseModel)`: active, last_update, optional last_distance_cm. -/
structure UltraState where
  active : Bool
  last_update : Nat
  last_distance_cm : Option ℚ
  deriving DecidableEq, Repr

/-- Python `class DhtState(BaseModel)`: optional temperature, humidity, last_update. -/
structure DhtState where
  temperature : Option ℚ
  humidity : Option ℚ
  last_update : Option Nat
  deriving DecidableEq, Repr

/-- Python `class HouseState(BaseModel)`: the single shared aggregate. -/
structure HouseState where
  doors : List (String × DoorState)
  lights : List (String × LightState)
  pir : PirState
  ultra : UltraState
  dht : DhtState
  modo_seguro : Bool
  deriving DecidableEq, Repr

/-- The module-level `state = HouseState(...)` initializer.  The source calls
`now()` once per field; all those calls happen at process start, embedded here
as a single start time `t`. -/
def initial_state (t : Nat) : HouseState :=
  { doors :=
      [ ("principal", { name := "principal", is_open := false, last_update := t }),
        ("garage", { name := "garage", is_open := false, last_update := t }) ],
    lights :=
      [ ("cocina", { room := "cocina", is_on := false, last_update := t }),
        ("sala", { room := "sala", is_on := false, last_update := t }),
        ("dorm", { room := "dorm", is_on := false, last_update := t }) ],
    pir := { active := false, last_update := t },
    ultra := { active := false, last_update := t, last_distance_cm := none },
    dht := { temperature := none, humidity := none, last_update := none },
    modo_seguro := false }

/-- Replace the value at key `k` of an association list in place (the effect of
the Python in-place mutation `dict[k].field = v` on the dict's contents). -/
def updKey {α : Type} (l : List (String × α)) (k : String) (f : α → α) :
    List (String × α) :=
  l.map fun p => if p.1 = k then (p.1, f p.2) else p

/-- Outcome of the network call `requests.get(url, timeout=3)` inside
`send_command_to_esp`: either it succeeds, or it raises some exception
(timeout, connection error, ...). -/
inductive ForwardOutcome where
  | success
  | exception (msg : String)
  deriving DecidableEq, Repr

/-- Behavior of `requests.get` as seen by the caller: raises (`Except.error`) exactly when
the network outcome is an exception. -/
def requests_get (outcome : ForwardOutcome) : Except String Unit :=
  match outcome with
  | .success => .ok ()
  | .exception m => .error m

/-- Python `def send_command_to_esp(path)`: returns immediately when the forwarding
flag is off; otherwise attempts the request and catches every exception
(logging it), so the function itself never raises. -/
def send_command_to_esp (forward_flag : Bool) (_path : String)
    (outcome : ForwardOutcome) : Except String Unit :=
  if forward_flag = false then .ok ()
  else
    match requests_get outcome with
    | .ok _ => .ok ()
    | .error _ => .ok ()

/-- Response of `GET /status`: the full state. -/
def get_status (s : HouseState) : HouseState := s

/-- Response body `{message, door}` of the door endpoints. -/
structure DoorResp where
  message : String
  door : DoorState
  deriving DecidableEq, Repr

/-- Response body `{message, light}` of the light endpoints. -/
structure LightResp where
  message : String
  light : LightState
  deriving DecidableEq, Repr

/-- Response body `{message, ultra}` of the ultrasonic endpoints. -/
structure UltraResp where
  message : String
  ultra : UltraState
  deriving DecidableEq, Repr

/-- Response body `{message, pir}` of the PIR endpoints. -/
structure PirResp where
  message : String
  pir : PirState
  deriving DecidableEq, Repr

/-- Response body `{message, dht}` of `POST /dht/update`. -/
structure DhtResp where
  message : String
  dht : DhtState
  deriving DecidableEq, Repr

/-- Response body `{message, status}` of `GET|POST /modo/seguro`. -/
structure ModoResp where
  message : String
  status : HouseState
  deriving DecidableEq, Repr

/-- Endpoint `GET|POST /principal/open`: opens the principal door, refreshes its
timestamp, clears `modo_seguro`.  `none` models the `KeyError` the Python
lookup would raise were the key absent. -/
def principal_open (s : HouseState) (t : Nat) : Option (DoorResp × HouseState) :=
  match s.doors.lookup "principal" with
  | none => none
  | some d =>
    let d' : DoorState := { d with is_open := true, last_update := t }
    let s' : HouseState :=
      { s with doors := updKey s.doors "principal" (fun x => { x with is_open := true, last_update := t }),
               modo_seguro := false }
    some ({ message := "Puerta principal abierta", door := d' }, s')

/-- Endpoint `GET|POST /principal/close`: closes the principal door, refreshes its
timestamp; does not touch `modo_seguro`. -/
def principal_close (s : HouseState) (t : Nat) : Option (DoorResp × HouseState) :=
  match s.doors.lookup "principal" with
  | none => none
  | some d =>
    let d' : DoorState := { d with is_open := false, last_update := t }
    let s' : HouseState :=
      { s with doors := updKey s.doors "principal" (fun x => { x with is_open := false, last_update := t }) }
    some ({ message := "Puerta principal cerrada", door := d' }, s')

/-- Endpoint `GET|POST /garage/open`: opens the garage door, refreshes its timestamp,
clears `modo_seguro`. -/
def garage_open (s : HouseState) (t : Nat) : Option (DoorResp × HouseState) :=
  match s.doors.lookup "garage" with
  | none => none
  | some d =>
    let d' : DoorState := { d with is_open := true, last_update := t }
    let s' : HouseState :=
      { s with doors := updKey s.doors "garage" (fun x => { x with is_open := true, last_update := t }),
               modo_seguro := false }
    some ({ message := "Puerta garage abierta", door := d' }, s')

/-- Endpoint `GET|POST /garage/close`: closes the garage door, refreshes its timestamp. -/
def garage_close (s : HouseState) (t : Nat) : Option (DoorResp × HouseState) :=
  match s.doors.lookup "garage" with
  | none => none
  | some d =>
    let d' : DoorState := { d with is_open := false, last_update := t }
    let s' : HouseState :=
      { s with doors := updKey s.doors "garage" (fun x => { x with is_open := false, last_update := t }) }
    some ({ message := "Puerta garage cerrada", door := d' }, s')

/-- Endpoint `GET|POST /ultra/on`: enables the ultrasonic sensor. -/
def ultra_on (s : HouseState) (t : Nat) : UltraResp × HouseState :=
  let u' : UltraState := { s.ultra with active := true, last_update := t }
  ({ message := "Ultrasonido activado", ultra := u' }, { s with ultra := u' })

/-- Endpoint `GET|POST /ultra/off`: disables the ultrasonic sensor. -/
def ultra_off (s : HouseState) (t : Nat) : UltraResp × HouseState :=
  let u' : UltraState := { s.ultra with active := false, last_update := t }
  ({ message := "Ultrasonido desactivado", ultra := u' }, { s with ultra := u' })

/-- Endpoint `POST /ultra/distance {distance_cm}`: records the last measured distance
and refreshes the ultrasonic timestamp; no forward. -/
def ultra_update_distance (s : HouseState) (t : Nat) (distance_cm : ℚ) :
    UltraResp × HouseState :=
  let u' : UltraState := { s.ultra with last_distance_cm := some distance_cm, last_update := t }
  ({ message := "Distancia actualizada", ultra := u' }, { s with ultra := u' })

/-- Endpoint `GET|POST /cocina/on`: turns the kitchen light on. -/
def cocina_on (s : HouseState) (t : Nat) : Option (LightResp × HouseState) :=
  match s.lights.lookup "cocina" with
  | none => none
  | some l =>
    let l' : LightState := { l with is_on := true, last_update := t }
    some ({ message := "Luz cocina encendida", light := l' },
      { s with lights := updKey s.lights "cocina" (fun x => { x with is_on := true, last_update := t }) })

/-- Endpoint `GET|POST /cocina/off`: turns the kitchen light off. -/
def cocina_off (s : HouseState) (t : Nat) : Option (LightResp × HouseState) :=
  match s.lights.lookup "cocina" with
  | none => none
  | some l =>
    let l' : LightState := { l with is_on := false, last_update := t }
    some ({ message := "Luz cocina apagada", light := l' },
      { s with lights := updKey s.lights "cocina" (fun x => { x with is_on := false, last_update := t }) })

/-- Endpoint `GET|POST /sala/on`: turns the living-room light on. -/
def sala_on (s : HouseState) (t : Nat) : Option (LightResp × HouseState) :=
  match s.lights.lookup "sala" with
  | none => none
  | some l =>
    let l' : LightState := { l with is_on := true, last_update := t }
    some ({ message := "Luz sala encendida", light := l' },
      { s with lights := updKey s.lights "sala" (fun x => { x with is_on := true, last_update := t }) })

/-- Endpoint `GET|POST /sala/off`: turns the living-room light off. -/
def sala_off (s : HouseState) (t : Nat) : Option (LightResp × HouseState) :=
  match s.lights.lookup "sala" with
  | none => none
  | some l =>
    let l' : LightState := { l with is_on := false, last_update := t }
    some ({ message := "Luz sala apagada", light := l' },
      { s with lights := updKey s.lights "sala" (fun x => { x with is_on := false, last_update := t }) })

/-- Endpoint `GET|POST /dorm/on`: turns the bedroom light on. -/
def dorm_on (s : HouseState) (t : Nat) : Option (LightResp × HouseState) :=
  match s.lights.lookup "dorm" with
  | none => none
  | some l =>
    let l' : LightState := { l with is_on := true, last_update := t }
    some ({ message := "Luz dormitorio encendida", light := l' },
      { s with lights := updKey s.lights "dorm" (fun x => { x with is_on := true, last_update := t }) })

/-- Endpoint `GET|POST /dorm/off`: turns the bedroom light off. -/
def dorm_off (s : HouseState) (t : Nat) : Option (LightResp × HouseState) :=
  match s.lights.lookup "dorm" with
  | none => none
  | some l =>
    let l' : LightState := { l with is_on := false, last_update := t }
    some ({ message := "Luz dormitorio apagada", light := l' },
      { s with lights := updKey s.lights "dorm" (fun x => { x with is_on := false, last_update := t }) })

/-- Endpoint `GET|POST /pir/on`: enables the PIR motion sensor. -/
def pir_on (s : HouseState) (t : Nat) : PirResp × HouseState :=
  let p' : PirState := { active := true, last_update := t }
  ({ message := "PIR activado", pir := p' }, { s with pir := p' })

/-- Endpoint `GET|POST /pir/off`: disables the PIR motion sensor. -/
def pir_off (s : HouseState) (t : Nat) : PirResp × HouseState :=
  let p' : PirState := { active := false, last_update := t }
  ({ message := "PIR desactivado", pir := p' }, { s with pir := p' })

/-- Endpoint `POST /dht/update {temperature, humidity}`: records the climate reading
and refreshes the DHT timestamp; no forward. -/
def dht_update (s : HouseState) (t : Nat) (temperature humidity : ℚ) :
    DhtResp × HouseState :=
  let d' : DhtState := { temperature := some temperature, humidity := some humidity,
                         last_update := some t }
  ({ message := "DHT actualizado", dht := d' }, { s with dht := d' })

/-- Endpoint `GET /dht`: returns the stored climate sub-entity. -/
def dht_get (s : HouseState) : DhtState := s.dht

/-- Endpoint `GET|POST /modo/seguro`: turns every light off, closes every door,
activates the PIR, deactivates the ultrasonic sensor (each with a refreshed
timestamp), sets the safe-mode flag, and returns the full state snapshot. -/
def modo_seguro (s : HouseState) (t : Nat) : ModoResp × HouseState :=
  let s' : HouseState :=
    { s with
      lights := s.lights.map (fun p => (p.1, { p.2 with is_on := false, last_update := t })),
      doors := s.doors.map (fun p => (p.1, { p.2 with is_open := false, last_update := t })),
      pir := { active := true, last_update := t },
      ultra := { s.ultra with active := false, last_update := t },
      modo_seguro := true }
  ({ message := "MODO SEGURO ACTIVADO", status := s' }, s')

/-- One mutating endpoint with its parsed request body. -/
inductive Op where
  | principal_open | principal_close | garage_open | garage_close
  | ultra_on | ultra_off
  | ultra_distance (distance_cm : ℚ)
  | cocina_on | cocina_off | sala_on | sala_off | dorm_on | dorm_off
  | pir_on | pir_off
  | dht_update (temperature humidity : ℚ)
  | modo_seguro
  deriving DecidableEq, Repr

/-- The state transition of one mutating endpoint (state part of the handler;
`none` models a `KeyError` escaping the handler). -/
def step (op : Op) (s : HouseState) (t : Nat) : Option HouseState :=
  match op with
  | .principal_open => (principal_open s t).map (·.2)
  | .principal_close => (principal_close s t).map (·.2)
  | .garage_open => (garage_open s t).map (·.2)
  | .garage_close => (garage_close s t).map (·.2)
  | .ultra_on => some (ultra_on s t).2
  | .ultra_off => some (ultra_off s t).2
  | .ultra_distance v => some (ultra_update_distance s t v).2
  | .cocina_on => (cocina_on s t).map (·.2)
  | .cocina_off => (cocina_off s t).map (·.2)
  | .sala_on => (sala_on s t).map (·.2)
  | .sala_off => (sala_off s t).map (·.2)
  | .dorm_on => (dorm_on s t).map (·.2)
  | .dorm_off => (dorm_off s t).map (·.2)
  | .pir_on => some (pir_on s t).2
  | .pir_off => some (pir_off s t).2
  | .dht_update a b => some (dht_update s t a b).2
  | .modo_seguro => some (modo_seguro s t).2

/-- The path an endpoint forwards to the ESP32, `none` for the two inbound
report endpoints (`/ultra/distance`, `/dht/update`) which do not forward. -/
def forward_path (op : Op) : Option String :=
  match op with
  | .principal_open => some "/principal/open"
  | .principal_close => some "/principal/close"
  | .garage_open => some "/garage/open"
  | .garage_close => some "/garage/close"
  | .ultra_on => some "/ultra/on"
  | .ultra_off => some "/ultra/off"
  | .ultra_distance _ => none
  | .cocina_on => some "/cocina/on"
  | .cocina_off => some "/cocina/off"
  | .sala_on => some "/sala/on"
  | .sala_off => some "/sala/off"
  | .dorm_on => some "/dorm/on"
  | .dorm_off => some "/dorm/off"
  | .pir_on => some "/pir/on"
  | .pir_off => some "/pir/off"
  | .dht_update _ _ => none
  | .modo_seguro => some "/modo/seguro"

/-- A whole request: the in-memory mutation is applied first, then the
command is forwarded (when the endpoint forwards at all); an error escaping
`send_command_to_esp` would abort the request (`none`). -/
def run_op (op : Op) (s : HouseState) (t : Nat) (forward_flag : Bool)
    (outcome : ForwardOutcome) : Option HouseState :=
  match step op s t with
  | none => none
  | some s' =>
    match forward_path op with
    | none => some s'
    | some p =>
      match send_command_to_esp forward_flag p outcome with
      | .ok _ => some s'
      | .error _ => none

/-- States reachable from a fresh process by any sequence of endpoint calls. -/
inductive Reachable : HouseState → Prop where
  | init (t : Nat) : Reachable (initial_state t)
  | step (op : Op) (t : Nat) {s s' : HouseState} :
      Reachable s → step op s t = some s' → Reachable s'

/-- The fixed key sets of the two mappings: exactly the keys installed by the
initializer, in order. -/
def hasKeys (s : HouseState) : Prop :=
  s.doors.map Prod.fst = ["principal", "garage"] ∧
  s.lights.map Prod.fst = ["cocina", "sala", "dorm"]

instance (s : HouseState) : Decidable (hasKeys s) := by
  unfold hasKeys
  infer_instance

/-- Every `last_update` stored anywhere in the state is `≤ t` (the monotonic
clock has not yet reached past `t`). -/
def boundedBy (s : HouseState) (t : Nat) : Prop :=
  (∀ p ∈ s.doors, p.2.last_update ≤ t) ∧
  (∀ p ∈ s.lights, p.2.last_update ≤ t) ∧
  s.pir.last_update ≤ t ∧
  s.ultra.last_update ≤ t ∧
  (∀ u, s.dht.last_update = some u → u ≤ t)

/-- Key-wise comparison: every sub-entity's `last_update` in `s₁` is at most
the matching sub-entity's `last_update` in `s₂`. -/
def timesLE (s₁ s₂ : HouseState) : Prop :=
  (∀ k d₁ d₂, s₁.doors.lookup k = some d₁ → s₂.doors.lookup k = some d₂ →
    d₁.last_update ≤ d₂.last_update) ∧
  (∀ k l₁ l₂, s₁.lights.lookup k = some l₁ → s₂.lights.lookup k = some l₂ →
    l₁.last_update ≤ l₂.last_update) ∧
  s₁.pir.last_update ≤ s₂.pir.last_update ∧
  s₁.ultra.last_update ≤ s₂.ultra.last_update ∧
  (∀ u₁, s₁.dht.last_update = some u₁ →
    ∃ u₂, s₂.dht.last_update = some u₂ ∧ u₁ ≤ u₂)

/-- Run a sequence of endpoint calls, each tagged with the time `now()`
returned during it. -/
def runTrace (s : HouseState) : List (Op × Nat) → Option HouseState
  | [] => some s
  | (op, t) :: rest =>
    match step op s t with
    | none => none
    | some s' => runTrace s' rest

/-- The clock readings of a trace are non-decreasing and start no earlier
than `b` (the monotonic clock assumption). -/
def traceMono (b : Nat) : List (Op × Nat) → Prop
  | [] => True
  | (_, t) :: rest => b ≤ t ∧ traceMono t rest

/-! Helper lemmas about association-list lookups and updates. -/

theorem lookup_cons {α : Type} (k a : String) (b : α) (rest : List (String × α)) :
    List.lookup k ((a, b) :: rest) = if k = a then some b else List.lookup k rest := by
  by_cases h : k = a
  · subst h
    simp [List.lookup]
  · have hb : (k == a) = false := beq_eq_false_iff_ne.mpr h
    simp [List.lookup, hb, h]

theorem updKey_cons {α : Type} (a : String) (b : α) (rest : List (String × α))
    (key : String) (f : α → α) :
    updKey ((a, b) :: rest) key f =
      (if a = key then (a, f b) else (a, b)) :: updKey rest key f := by
  by_cases h : a = key <;> simp [updKey, h]

theorem lookup_updKey {α : Type} (l : List (String × α)) (key : String)
    (f : α → α) (k : String) :
    (updKey l key f).lookup k =
      if k = key then (l.lookup k).map f else l.lookup k := by
  induction l with
  | nil => simp [updKey]
  | cons p rest ih =>
    obtain ⟨a, b⟩ := p
    rw [updKey_cons]
    by_cases hak : a = key
    · subst hak
      by_cases hka : k = a
      · subst hka
        simp [lookup_cons]
      · simp [lookup_cons, hka, ih]
    · by_cases hka : k = a
      · subst hka
        simp [lookup_cons, hak, Ne.symm hak]
      · simp [lookup_cons, hak, hka, ih]

theorem lookup_map_val {α β : Type} (g : α → β) (l : List (String × α))
    (k : String) :
    (l.map fun p => (p.1, g p.2)).lookup k = (l.lookup k).map g := by
  induction l with
  | nil => simp
  | cons p rest ih =>
    obtain ⟨a, b⟩ := p
    by_cases hka : k = a
    · subst hka
      simp [lookup_cons]
    · simp [lookup_cons, hka, ih]

theorem keys_updKey {α : Type} (l : List (String × α)) (key : String)
    (f : α → α) :
    (updKey l key f).map Prod.fst = l.map Prod.fst := by
  induction l with
  | nil => rfl
  | cons p rest ih =>
    by_cases h : p.1 = key <;> simp [updKey, h] at * <;> exact ih

theorem keys_map_val {α β : Type} (g : α → β) (l : List (String × α)) :
    (l.map fun p => (p.1, g p.2)).map Prod.fst = l.map Prod.fst := by
  induction l with
  | nil => rfl
  | cons p rest ih => simp [ih]

theorem lookup_isSome_iff {α : Type} (l : List (String × α)) (k : String) :
    (l.lookup k).isSome = true ↔ k ∈ l.map Prod.fst := by
  induction l with
  | nil => simp
  | cons p rest ih =>
    obtain ⟨a, b⟩ := p
    by_cases hka : k = a
    · subst hka
      simp [lookup_cons]
    · simp [lookup_cons, hka, ih]

theorem mem_of_lookup_eq_some {α : Type} {l : List (String × α)} {k : String}
    {x : α} (h : l.lookup k = some x) : (k, x) ∈ l := by
  induction l with
  | nil => simp [List.lookup] at h
  | cons p rest ih =>
    obtain ⟨a, b⟩ := p
    by_cases hka : k = a
    · subst hka
      rw [lookup_cons, if_pos rfl] at h
      cases h
      exact List.mem_cons_self _ _
    · rw [lookup_cons, if_neg hka] at h
      exact List.mem_cons_of_mem _ (ih h)

theorem lookup_updKey_le {α : Type} (time : α → Nat) {l : List (String × α)}
    {t : Nat} (hb : ∀ p ∈ l, time p.2 ≤ t) (key : String) (f : α → α)
    (hf : ∀ x, time (f x) = t) :
    ∀ k d₁ d₂, l.lookup k = some d₁ → (updKey l key f).lookup k = some d₂ →
      time d₁ ≤ time d₂ := by
  intro k d₁ d₂ h1 h2
  rw [lookup_updKey] at h2
  by_cases hk : k = key
  · rw [if_pos hk, h1] at h2
    simp only [Option.map_some', Option.some.injEq] at h2
    subst h2
    rw [hf]
    exact hb (k, d₁) (mem_of_lookup_eq_some h1)
  · rw [if_neg hk, h1] at h2
    cases h2
    exact le_refl _

theorem lookup_map_val_le {α : Type} (time : α → Nat) {l : List (String × α)}
    {t : Nat} (hb : ∀ p ∈ l, time p.2 ≤ t) (g : α → α)
    (hg : ∀ x, time (g x) = t) :
    ∀ k d₁ d₂, l.lookup k = some d₁ →
      (l.map fun p => (p.1, g p.2)).lookup k = some d₂ → time d₁ ≤ time d₂ := by
  intro k d₁ d₂ h1 h2
  rw [lookup_map_val, h1] at h2
  simp only [Option.map_some', Option.some.injEq] at h2
  subst h2
  rw [hg]
  exact hb (k, d₁) (mem_of_lookup_eq_some h1)

theorem updKey_all_le {α : Type} (time : α → Nat) {l : List (String × α)}
    {t : Nat} (hb : ∀ p ∈ l, time p.2 ≤ t) (key : String) (f : α → α)
    (hf : ∀ x, time (f x) ≤ t) :
    ∀ p ∈ updKey l key f, time p.2 ≤ t := by
  intro p hp
  rw [updKey, List.mem_map] at hp
  obtain ⟨q, hq, rfl⟩ := hp
  by_cases h : q.1 = key
  · rw [if_pos h]
    exact hf q.2
  · rw [if_neg h]
    exact hb q hq

theorem map_val_all_le {α : Type} (time : α → Nat) {l : List (String × α)}
    {t : Nat} (g : α → α) (hg : ∀ x, time (g x) ≤ t) :
    ∀ p ∈ (l.map fun p => (p.1, g p.2)), time p.2 ≤ t := by
  intro p hp
  rw [List.mem_map] at hp
  obtain ⟨q, _, rfl⟩ := hp
  exact hg q.2

theorem lookup_le_refl {α : Type} (time : α → Nat) (l : List (String × α)) :
    ∀ k d₁ d₂, l.lookup k = some d₁ → l.lookup k = some d₂ →
      time d₁ ≤ time d₂ := by
  intro k d₁ d₂ h1 h2
  rw [h1] at h2
  cases h2
  exact le_refl _

theorem dht_le_refl (d : DhtState) :
    ∀ u₁, d.last_update = some u₁ → ∃ u₂, d.last_update = some u₂ ∧ u₁ ≤ u₂ :=
  fun u₁ h => ⟨u₁, h, le_refl _⟩

theorem timesLE_refl (s : HouseState) : timesLE s s :=
  ⟨lookup_le_refl _ _, lookup_le_refl _ _, le_refl _, le_refl _, dht_le_refl _⟩

theorem timesLE_trans {s s₁ s₂ : HouseState}
    (h1 : timesLE s s₁) (h2 : timesLE s₁ s₂)
    (hd : s₁.doors.map Prod.fst = s.doors.map Prod.fst)
    (hl : s₁.lights.map Prod.fst = s.lights.map Prod.fst) :
    timesLE s s₂ := by
  obtain ⟨h1d, h1l, h1p, h1u, h1t⟩ := h1
  obtain ⟨h2d, h2l, h2p, h2u, h2t⟩ := h2
  refine ⟨?_, ?_, le_trans h1p h2p, le_trans h1u h2u, ?_⟩
  · intro k d₁ d₂ hk1 hk2
    have hmem : k ∈ s₁.doors.map Prod.fst := by
      rw [hd]
      exact (lookup_isSome_iff _ _).mp (by rw [hk1]; rfl)
    obtain ⟨dm, hdm⟩ :=
      Option.isSome_iff_exists.mp ((lookup_isSome_iff _ _).mpr hmem)
    exact le_trans (h1d k d₁ dm hk1 hdm) (h2d k dm d₂ hdm hk2)
  · intro k l₁ l₂ hk1 hk2
    have hmem : k ∈ s₁.lights.map Prod.fst := by
      rw [hl]
      exact (lookup_isSome_iff _ _).mp (by rw [hk1]; rfl)
    obtain ⟨lm, hlm⟩ :=
      Option.isSome_iff_exists.mp ((lookup_isSome_iff _ _).mpr hmem)
    exact le_trans (h1l k l₁ lm hk1 hlm) (h2l k lm l₂ hlm hk2)
  · intro u₁ hu
    obtain ⟨um, hum, hle⟩ := h1t u₁ hu
    obtain ⟨u₂, hu₂, hle₂⟩ := h2t um hum
    exact ⟨u₂, hu₂, le_trans hle hle₂⟩

theorem boundedBy_mono {s : HouseState} {b t : Nat}
    (hb : boundedBy s b) (hbt : b ≤ t) : boundedBy s t := by
  obtain ⟨h1, h2, h3, h4, h5⟩ := hb
  exact ⟨fun p hp => le_trans (h1 p hp) hbt, fun p hp => le_trans (h2 p hp) hbt,
    le_trans h3 hbt, le_trans h4 hbt,
    fun u hu => le_trans (h5 u hu) hbt⟩

/-- Single-request effect on timestamps: every `last_update` can only move
forward, the current clock value stays an upper bound, and the key sets of the
two mappings are untouched. -/
theorem step_props {op : Op} {s s' : HouseState} {t : Nat}
    (hb : boundedBy s t) (h : step op s t = some s') :
    timesLE s s' ∧ boundedBy s' t ∧
    s'.doors.map Prod.fst = s.doors.map Prod.fst ∧
    s'.lights.map Prod.fst = s.lights.map Prod.fst := by
  obtain ⟨hbd, hbl, hbp, hbu, hbt⟩ := hb
  cases op with
  | principal_open =>
    cases hl : s.doors.lookup "principal" with
    | none => simp [step, principal_open, hl] at h
    | some d =>
      simp only [step, principal_open, hl, Option.map_some',
        Option.some.injEq] at h
      subst h
      refine ⟨⟨lookup_updKey_le DoorState.last_update hbd "principal"
          (fun x => { x with is_open := true, last_update := t }) (fun _ => rfl),
          lookup_le_refl _ _, le_refl _, le_refl _, dht_le_refl _⟩,
        ⟨updKey_all_le DoorState.last_update hbd "principal"
          (fun x => { x with is_open := true, last_update := t }) (fun _ => le_refl t),
          hbl, hbp, hbu, hbt⟩, ?_, ?_⟩ <;>
        simp [keys_updKey]
  | principal_close =>
    cases hl : s.doors.lookup "principal" with
    | none => simp [step, principal_close, hl] at h
    | some d =>
      simp only [step, principal_close, hl, Option.map_some',
        Option.some.injEq] at h
      subst h
      refine ⟨⟨lookup_updKey_le DoorState.last_update hbd "principal"
          (fun x => { x with is_open := false, last_update := t }) (fun _ => rfl),
          lookup_le_refl _ _, le_refl _, le_refl _, dht_le_refl _⟩,
        ⟨updKey_all_le DoorState.last_update hbd "principal"
          (fun x => { x with is_open := false, last_update := t }) (fun _ => le_refl t),
          hbl, hbp, hbu, hbt⟩, ?_, ?_⟩ <;>
        simp [keys_updKey]
  | garage_open =>
    cases hl : s.doors.lookup "garage" with
    | none => simp [step, garage_open, hl] at h
    | some d =>
      simp only [step, garage_open, hl, Option.map_some',
        Option.some.injEq] at h
      subst h
      refine ⟨⟨lookup_updKey_le DoorState.last_update hbd "garage"
          (fun x => { x with is_open := true, last_update := t }) (fun _ => rfl),
          lookup_le_refl _ _, le_refl _, le_refl _, dht_le_refl _⟩,
        ⟨updKey_all_le DoorState.last_update hbd "garage"
          (fun x => { x with is_open := true, last_update := t }) (fun _ => le_refl t),
          hbl, hbp, hbu, hbt⟩, ?_, ?_⟩ <;>
        simp [keys_updKey]
  | garage_close =>
    cases hl : s.doors.lookup "garage" with
    | none => simp [step, garage_close, hl] at h
    | some d =>
      simp only [step, garage_close, hl, Option.map_some',
        Option.some.injEq] at h
      subst h
      refine ⟨⟨lookup_updKey_le DoorState.last_update hbd "garage"
          (fun x => { x with is_open := false, last_update := t }) (fun _ => rfl),
          lookup_le_refl _ _, le_refl _, le_refl _, dht_le_refl _⟩,
        ⟨updKey_all_le DoorState.last_update hbd "garage"
          (fun x => { x with is_open := false, last_update := t }) (fun _ => le_refl t),
          hbl, hbp, hbu, hbt⟩, ?_, ?_⟩ <;>
        simp [keys_updKey]
  | ultra_on =>
    simp only [step, ultra_on, Option.some.injEq] at h
    subst h
    exact ⟨⟨lookup_le_refl _ _, lookup_le_refl _ _, le_refl _, hbu, dht_le_refl _⟩,
      ⟨hbd, hbl, hbp, le_refl t, hbt⟩, rfl, rfl⟩
  | ultra_off =>
    simp only [step, ultra_off, Option.some.injEq] at h
    subst h
    exact ⟨⟨lookup_le_refl _ _, lookup_le_refl _ _, le_refl _, hbu, dht_le_refl _⟩,
      ⟨hbd, hbl, hbp, le_refl t, hbt⟩, rfl, rfl⟩
  | ultra_distance v =>
    simp only [step, ultra_update_distance, Option.some.injEq] at h
    subst h
    exact ⟨⟨lookup_le_refl _ _, lookup_le_refl _ _, le_refl _, hbu, dht_le_refl _⟩,
      ⟨hbd, hbl, hbp, le_refl t, hbt⟩, rfl, rfl⟩
  | cocina_on =>
    cases hl : s.lights.lookup "cocina" with
    | none => simp [step, cocina_on, hl] at h
    | some l =>
      simp only [step, cocina_on, hl, Option.map_some', Option.some.injEq] at h
      subst h
      refine ⟨⟨lookup_le_refl _ _,
          lookup_updKey_le LightState.last_update hbl "cocina"
            (fun x => { x with is_on := true, last_update := t }) (fun _ => rfl),
          le_refl _, le_refl _, dht_le_refl _⟩,
        ⟨hbd, updKey_all_le LightState.last_update hbl "cocina"
            (fun x => { x with is_on := true, last_update := t }) (fun _ => le_refl t),
          hbp, hbu, hbt⟩, ?_, ?_⟩ <;>
        simp [keys_updKey]
  | cocina_off =>
    cases hl : s.lights.lookup "cocina" with
    | none => simp [step, cocina_off, hl] at h
    | some l =>
      simp only [step, cocina_off, hl, Option.map_some', Option.some.injEq] at h
      subst h
      refine ⟨⟨lookup_le_refl _ _,
          lookup_updKey_le LightState.last_update hbl "cocina"
            (fun x => { x with is_on := false, last_update := t }) (fun _ => rfl),
          le_refl _, le_refl _, dht_le_refl _⟩,
        ⟨hbd, updKey_all_le LightState.last_update hbl "cocina"
            (fun x => { x with is_on := false, last_update := t }) (fun _ => le_refl t),
          hbp, hbu, hbt⟩, ?_, ?_⟩ <;>
        simp [keys_updKey]
  | sala_on =>
    cases hl : s.lights.lookup "sala" with
    | none => simp [step, sala_on, hl] at h
    | some l =>
      simp only [step, sala_on, hl, Option.map_some', Option.some.injEq] at h
      subst h
      refine ⟨⟨lookup_le_refl _ _,
          lookup_updKey_le LightState.last_update hbl "sala"
            (fun x => { x with is_on := true, last_update := t }) (fun _ => rfl),
          le_refl _, le_refl _, dht_le_refl _⟩,
        ⟨hbd, updKey_all_le LightState.last_update hbl "sala"
            (fun x => { x with is_on := true, last_update := t }) (fun _ => le_refl t),
          hbp, hbu, hbt⟩, ?_, ?_⟩ <;>
        simp [keys_updKey]
  | sala_off =>
    cases hl : s.lights.lookup "sala" with
    | none => simp [step, sala_off, hl] at h
    | some l =>
      simp only [step, sala_off, hl, Option.map_some', Option.some.injEq] at h
      subst h
      refine ⟨⟨lookup_le_refl _ _,
          lookup_updKey_le LightState.last_update hbl "sala"
            (fun x => { x with is_on := false, last_update := t }) (fun _ => rfl),
          le_refl _, le_refl _, dht_le_refl _⟩,
        ⟨hbd, updKey_all_le LightState.last_update hbl "sala"
            (fun x => { x with is_on := false, last_update := t }) (fun _ => le_refl t),
          hbp, hbu, hbt⟩, ?_, ?_⟩ <;>
        simp [keys_updKey]
  | dorm_on =>
    cases hl : s.lights.lookup "dorm" with
    | none => simp [step, dorm_on, hl] at h
    | some l =>
      simp only [step, dorm_on, hl, Option.map_some', Option.some.injEq] at h
      subst h
      refine ⟨⟨lookup_le_refl _ _,
          lookup_updKey_le LightState.last_update hbl "dorm"
            (fun x => { x with is_on := true, last_update := t }) (fun _ => rfl),
          le_refl _, le_refl _, dht_le_refl _⟩,
        ⟨hbd, updKey_all_le LightState.last_update hbl "dorm"
            (fun x => { x with is_on := true, last_update := t }) (fun _ => le_refl t),
          hbp, hbu, hbt⟩, ?_, ?_⟩ <;>
        simp [keys_updKey]
  | dorm_off =>
    cases hl : s.lights.lookup "dorm" with
    | none => simp [step, dorm_off, hl] at h
    | some l =>
      simp only [step, dorm_off, hl, Option.map_some', Option.some.injEq] at h
      subst h
      refine ⟨⟨lookup_le_refl _ _,
          lookup_updKey_le LightState.last_update hbl "dorm"
            (fun x => { x with is_on := false, last_update := t }) (fun _ => rfl),
          le_refl _, le_refl _, dht_le_refl _⟩,
        ⟨hbd, updKey_all_le LightState.last_update hbl "dorm"
            (fun x => { x with is_on := false, last_update := t }) (fun _ => le_refl t),
          hbp, hbu, hbt⟩, ?_, ?_⟩ <;>
        simp [keys_updKey]
  | pir_on =>
    simp only [step, pir_on, Option.some.injEq] at h
    subst h
    exact ⟨⟨lookup_le_refl _ _, lookup_le_refl _ _, hbp, le_refl _, dht_le_refl _⟩,
      ⟨hbd, hbl, le_refl t, hbu, hbt⟩, rfl, rfl⟩
  | pir_off =>
    simp only [step, pir_off, Option.some.injEq] at h
    subst h
    exact ⟨⟨lookup_le_refl _ _, lookup_le_refl _ _, hbp, le_refl _, dht_le_refl _⟩,
      ⟨hbd, hbl, le_refl t, hbu, hbt⟩, rfl, rfl⟩
  | dht_update a b =>
    simp only [step, dht_update, Option.some.injEq] at h
    subst h
    refine ⟨⟨lookup_le_refl _ _, lookup_le_refl _ _, le_refl _, le_refl _, ?_⟩,
      ⟨hbd, hbl, hbp, hbu, ?_⟩, rfl, rfl⟩
    · intro u₁ hu
      exact ⟨t, rfl, hbt u₁ hu⟩
    · intro u hu
      cases hu
      exact le_refl t
  | modo_seguro =>
    simp only [step, modo_seguro, Option.some.injEq] at h
    subst h
    refine ⟨⟨lookup_map_val_le DoorState.last_update hbd
        (fun x => { x with is_open := false, last_update := t }) (fun _ => rfl),
        lookup_map_val_le LightState.last_update hbl
          (fun x => { x with is_on := false, last_update := t }) (fun _ => rfl),
        hbp, hbu, dht_le_refl _⟩,
      ⟨map_val_all_le DoorState.last_update
          (fun x => { x with is_open := false, last_update := t }) (fun _ => le_refl t),
        map_val_all_le LightState.last_update
          (fun x => { x with is_on := false, last_update := t }) (fun _ => le_refl t),
        le_refl t, le_refl t, hbt⟩, ?_, ?_⟩ <;>
      simp [keys_map_val]

/-- No request ever adds or removes a key of the two mappings. -/
theorem step_keys {op : Op} {s s' : HouseState} {t : Nat}
    (h : step op s t = some s') :
    s'.doors.map Prod.fst = s.doors.map Prod.fst ∧
    s'.lights.map Prod.fst = s.lights.map Prod.fst := by
  cases op with
  | principal_open =>
    cases hl : s.doors.lookup "principal" with
    | none => simp [step, principal_open, hl] at h
    | some d =>
      simp only [step, principal_open, hl, Option.map_some',
        Option.some.injEq] at h
      subst h
      constructor <;> simp [keys_updKey]
  | principal_close =>
    cases hl : s.doors.lookup "principal" with
    | none => simp [step, principal_close, hl] at h
    | some d =>
      simp only [step, principal_close, hl, Option.map_some',
        Option.some.injEq] at h
      subst h
      constructor <;> simp [keys_updKey]
  | garage_open =>
    cases hl : s.doors.lookup "garage" with
    | none => simp [step, garage_open, hl] at h
    | some d =>
      simp only [step, garage_open, hl, Option.map_some',
        Option.some.injEq] at h
      subst h
      constructor <;> simp [keys_updKey]
  | garage_close =>
    cases hl : s.doors.lookup "garage" with
    | none => simp [step, garage_close, hl] at h
    | some d =>
      simp only [step, garage_close, hl, Option.map_some',
        Option.some.injEq] at h
      subst h
      constructor <;> simp [keys_updKey]
  | ultra_on =>
    simp only [step, ultra_on, Option.some.injEq] at h
    subst h
    exact ⟨rfl, rfl⟩
  | ultra_off =>
    simp only [step, ultra_off, Option.some.injEq] at h
    subst h
    exact ⟨rfl, rfl⟩
  | ultra_distance v =>
    simp only [step, ultra_update_distance, Option.some.injEq] at h
    subst h
    exact ⟨rfl, rfl⟩
  | cocina_on =>
    cases hl : s.lights.lookup "cocina" with
    | none => simp [step, cocina_on, hl] at h
    | some l =>
      simp only [step, cocina_on, hl, Option.map_some', Option.some.injEq] at h
      subst h
      constructor <;> simp [keys_updKey]
  | cocina_off =>
    cases hl : s.lights.lookup "cocina" with
    | none => simp [step, cocina_off, hl] at h
    | some l =>
      simp only [step, cocina_off, hl, Option.map_some', Option.some.injEq] at h
      subst h
      constructor <;> simp [keys_updKey]
  | sala_on =>
    cases hl : s.lights.lookup "sala" with
    | none => simp [step, sala_on, hl] at h
    | some l =>
      simp only [step, sala_on, hl, Option.map_some', Option.some.injEq] at h
      subst h
      constructor <;> simp [keys_updKey]
  | sala_off =>
    cases hl : s.lights.lookup "sala" with
    | none => simp [step, sala_off, hl] at h
    | some l =>
      simp only [step, sala_off, hl, Option.map_some', Option.some.injEq] at h
      subst h
      constructor <;> simp [keys_updKey]
  | dorm_on =>
    cases hl : s.lights.lookup "dorm" with
    | none => simp [step, dorm_on, hl] at h
    | some l =>
      simp only [step, dorm_on, hl, Option.map_some', Option.some.injEq] at h
      subst h
      constructor <;> simp [keys_updKey]
  | dorm_off =>
    cases hl : s.lights.lookup "dorm" with
    | none => simp [step, dorm_off, hl] at h
    | some l =>
      simp only [step, dorm_off, hl, Option.map_some', Option.some.injEq] at h
      subst h
      constructor <;> simp [keys_updKey]
  | pir_on =>
    simp only [step, pir_on, Option.some.injEq] at h
    subst h
    exact ⟨rfl, rfl⟩
  | pir_off =>
    simp only [step, pir_off, Option.some.injEq] at h
    subst h
    exact ⟨rfl, rfl⟩
  | dht_update a b =>
    simp only [step, dht_update, Option.some.injEq] at h
    subst h
    exact ⟨rfl, rfl⟩
  | modo_seguro =>
    simp only [step, modo_seguro, Option.some.injEq] at h
    subst h
    constructor <;> simp [keys_map_val]

/-- The key sets installed at process start survive every request. -/
theorem reachable_hasKeys {s : HouseState} (h : Reachable s) : hasKeys s := by
  induction h with
  | init t => exact ⟨rfl, rfl⟩
  | step op t hr hstep ih =>
    obtain ⟨hd, hl⟩ := step_keys hstep
    exact ⟨by rw [hd]; exact ih.1, by rw [hl]; exact ih.2⟩

/-- Monotonicity along a whole trace of requests. -/
theorem runTrace_timesLE {tr : List (Op × Nat)} :
    ∀ {s s' : HouseState} {b : Nat}, boundedBy s b → traceMono b tr →
      runTrace s tr = some s' → timesLE s s' := by
  induction tr with
  | nil =>
    intro s s' b hb hm h
    simp only [runTrace, Option.some.injEq] at h
    subst h
    exact timesLE_refl s
  | cons p rest ih =>
    intro s s' b hb hm h
    obtain ⟨op, t⟩ := p
    obtain ⟨hbt, hm'⟩ := hm
    have hb' : boundedBy s t := boundedBy_mono hb hbt
    cases hstep : step op s t with
    | none =>
      simp only [runTrace, hstep] at h
      exact Option.noConfusion h
    | some s₁ =>
      simp only [runTrace, hstep] at h
      obtain ⟨hle, hb₁, hkd, hkl⟩ := step_props hb' hstep
      exact timesLE_trans hle (ih hb₁ hm' h) hkd hkl

/-! Claim theorems. -/

/-- C1: after `/modo/seguro` runs, every light is off, every door is closed,
the PIR is active, the ultrasonic sensor is inactive, the safe-mode flag is
true, each touched sub-entity carries the refreshed timestamp, and the
response's `status` field is the full post-mutation state. -/
theorem modo_seguro_forces_safe_config (s : HouseState) (t : Nat) :
    (∀ p ∈ (modo_seguro s t).2.lights, p.2.is_on = false ∧ p.2.last_update = t) ∧
    (∀ p ∈ (modo_seguro s t).2.doors, p.2.is_open = false ∧ p.2.last_update = t) ∧
    (modo_seguro s t).2.pir.active = true ∧
    (modo_seguro s t).2.pir.last_update = t ∧
    (modo_seguro s t).2.ultra.active = false ∧
    (modo_seguro s t).2.ultra.last_update = t ∧
    (modo_seguro s t).2.modo_seguro = true ∧
    (modo_seguro s t).1.status = (modo_seguro s t).2 := by
  refine ⟨?_, ?_, rfl, rfl, rfl, rfl, rfl, rfl⟩ <;>
  · intro p hp
    simp only [modo_seguro, List.mem_map] at hp
    obtain ⟨q, _, rfl⟩ := hp
    exact ⟨rfl, rfl⟩

theorem modo_seguro_forces_safe_config_witness :
    (("cocina", ({ room := "cocina", is_on := false, last_update := 1 } : LightState)) ∈
        (modo_seguro (initial_state 0) 1).2.lights) ∧
    ({ room := "cocina", is_on := false, last_update := 1 } : LightState).is_on = false ∧
    ({ room := "cocina", is_on := false, last_update := 1 } : LightState).last_update = 1 := by
  have hmem : (("cocina", ({ room := "cocina", is_on := false, last_update := 1 } : LightState)) ∈
      (modo_seguro (initial_state 0) 1).2.lights) := by decide
  have hprop := (modo_seguro_forces_safe_config (initial_state 0) 1).1 _ hmem
  exact ⟨hmem, hprop.1, hprop.2⟩

/-- C2: for every starting state, opening either door unconditionally clears
the safe-mode flag, sets the door's `is_open` to true and refreshes its
timestamp. -/
theorem door_open_clears_safe_mode (s : HouseState) (t : Nat)
    (dp dg : DoorState)
    (hp : s.doors.lookup "principal" = some dp)
    (hg : s.doors.lookup "garage" = some dg) :
    (∃ r s', principal_open s t = some (r, s') ∧ s'.modo_seguro = false ∧
      s'.doors.lookup "principal" =
        some { dp with is_open := true, last_update := t }) ∧
    (∃ r s', garage_open s t = some (r, s') ∧ s'.modo_seguro = false ∧
      s'.doors.lookup "garage" =
        some { dg with is_open := true, last_update := t }) := by
  constructor
  · refine ⟨{ message := "Puerta principal abierta", door := { dp with is_open := true, last_update := t } },
      { s with doors := updKey s.doors "principal" (fun x => { x with is_open := true, last_update := t }), modo_seguro := false },
      ?_, rfl, ?_⟩
    · simp [principal_open, hp]
    · simp [lookup_updKey, hp]
  · refine ⟨{ message := "Puerta garage abierta", door := { dg with is_open := true, last_update := t } },
      { s with doors := updKey s.doors "garage" (fun x => { x with is_open := true, last_update := t }), modo_seguro := false },
      ?_, rfl, ?_⟩
    · simp [garage_open, hg]
    · simp [lookup_updKey, hg]

theorem door_open_clears_safe_mode_witness :
    (∃ r s', principal_open (initial_state 0) 1 = some (r, s') ∧
      s'.modo_seguro = false ∧
      s'.doors.lookup "principal" =
        some { name := "principal", is_open := true, last_update := 1 }) ∧
    (∃ r s', garage_open (initial_state 0) 1 = some (r, s') ∧
      s'.modo_seguro = false ∧
      s'.doors.lookup "garage" =
        some { name := "garage", is_open := true, last_update := 1 }) :=
  door_open_clears_safe_mode (initial_state 0) 1
    { name := "principal", is_open := false, last_update := 0 }
    { name := "garage", is_open := false, last_update := 0 } rfl rfl

/-- C3: every request other than the two door-open requests and `/modo/seguro`
leaves the safe-mode flag exactly as it was; in particular door-close and the
light on/off requests never touch it. -/
theorem non_open_ops_preserve_safe_mode (op : Op) (s : HouseState) (t : Nat)
    (s' : HouseState) (h : step op s t = some s')
    (h1 : op ≠ .principal_open) (h2 : op ≠ .garage_open)
    (h3 : op ≠ .modo_seguro) :
    s'.modo_seguro = s.modo_seguro := by
  cases op with
  | principal_open => exact absurd rfl h1
  | garage_open => exact absurd rfl h2
  | modo_seguro => exact absurd rfl h3
  | principal_close =>
    cases hl : s.doors.lookup "principal" with
    | none => simp [step, principal_close, hl] at h
    | some d =>
      simp only [step, principal_close, hl, Option.map_some',
        Option.some.injEq] at h
      subst h
      rfl
  | garage_close =>
    cases hl : s.doors.lookup "garage" with
    | none => simp [step, garage_close, hl] at h
    | some d =>
      simp only [step, garage_close, hl, Option.map_some',
        Option.some.injEq] at h
      subst h
      rfl
  | ultra_on =>
    simp only [step, ultra_on, Option.some.injEq] at h
    subst h
    rfl
  | ultra_off =>
    simp only [step, ultra_off, Option.some.injEq] at h
    subst h
    rfl
  | ultra_distance v =>
    simp only [step, ultra_update_distance, Option.some.injEq] at h
    subst h
    rfl
  | cocina_on =>
    cases hl : s.lights.lookup "cocina" with
    | none => simp [step, cocina_on, hl] at h
    | some l =>
      simp only [step, cocina_on, hl, Option.map_some', Option.some.injEq] at h
      subst h
      rfl
  | cocina_off =>
    cases hl : s.lights.lookup "cocina" with
    | none => simp [step, cocina_off, hl] at h
    | some l =>
      simp only [step, cocina_off, hl, Option.map_some', Option.some.injEq] at h
      subst h
      rfl
  | sala_on =>
    cases hl : s.lights.lookup "sala" with
    | none => simp [step, sala_on, hl] at h
    | some l =>
      simp only [step, sala_on, hl, Option.map_some', Option.some.injEq] at h
      subst h
      rfl
  | sala_off =>
    cases hl : s.lights.lookup "sala" with
    | none => simp [step, sala_off, hl] at h
    | some l =>
      simp only [step, sala_off, hl, Option.map_some', Option.some.injEq] at h
      subst h
      rfl
  | dorm_on =>
    cases hl : s.lights.lookup "dorm" with
    | none => simp [step, dorm_on, hl] at h
    | some l =>
      simp only [step, dorm_on, hl, Option.map_some', Option.some.injEq] at h
      subst h
      rfl
  | dorm_off =>
    cases hl : s.lights.lookup "dorm" with
    | none => simp [step, dorm_off, hl] at h
    | some l =>
      simp only [step, dorm_off, hl, Option.map_some', Option.some.injEq] at h
      subst h
      rfl
  | pir_on =>
    simp only [step, pir_on, Option.some.injEq] at h
    subst h
    rfl
  | pir_off =>
    simp only [step, pir_off, Option.some.injEq] at h
    subst h
    rfl
  | dht_update a b =>
    simp only [step, dht_update, Option.some.injEq] at h
    subst h
    rfl

theorem non_open_ops_preserve_safe_mode_witness :
    ({ initial_state 0 with
        doors := updKey (initial_state 0).doors "principal"
          (fun x => { x with is_open := false, last_update := 1 }) } :
      HouseState).modo_seguro = (initial_state 0).modo_seguro :=
  non_open_ops_preserve_safe_mode Op.principal_close (initial_state 0) 1 _ rfl
    (by decide) (by decide) (by decide)

/-- C4: reporting an ultrasonic distance stores exactly that value, refreshes
only the ultrasonic timestamp, leaves `ultra.active` and every other field of
the house state unchanged, is visible in the next full-state read, and
forwards nothing to the controller. -/
theorem ultra_distance_updates_only_ultra (s : HouseState) (t : Nat) (v : ℚ) :
    (ultra_update_distance s t v).2.ultra.last_distance_cm = some v ∧
    (ultra_update_distance s t v).2.ultra.last_update = t ∧
    (ultra_update_distance s t v).2.ultra.active = s.ultra.active ∧
    (ultra_update_distance s t v).2.doors = s.doors ∧
    (ultra_update_distance s t v).2.lights = s.lights ∧
    (ultra_update_distance s t v).2.pir = s.pir ∧
    (ultra_update_distance s t v).2.dht = s.dht ∧
    (ultra_update_distance s t v).2.modo_seguro = s.modo_seguro ∧
    (get_status (ultra_update_distance s t v).2).ultra.last_distance_cm = some v ∧
    (ultra_update_distance s t v).1.ultra =
      (ultra_update_distance s t v).2.ultra ∧
    forward_path (.ultra_distance v) = none := by
  exact ⟨rfl, rfl, rfl, rfl, rfl, rfl, rfl, rfl, rfl, rfl, rfl⟩

/-- C5: reporting a climate reading and then reading `/dht` returns exactly
the reported temperature and humidity with a non-null timestamp. -/
theorem dht_update_then_get (s : HouseState) (tm : Nat) (t h : ℚ) :
    dht_get (dht_update s tm t h).2 =
      { temperature := some t, humidity := some h, last_update := some tm } ∧
    (dht_get (dht_update s tm t h).2).last_update.isSome = true := by
  exact ⟨rfl, rfl⟩

/-- C6: the freshly initialized state has both doors closed, all three lights
off, both sensors inactive, no distance reading, an empty climate record and
the safe-mode flag cleared. -/
theorem initial_state_defaults (t : Nat) :
    get_status (initial_state t) = initial_state t ∧
    (initial_state t).doors.map Prod.fst = ["principal", "garage"] ∧
    (∀ p ∈ (initial_state t).doors, p.2.is_open = false) ∧
    (initial_state t).lights.map Prod.fst = ["cocina", "sala", "dorm"] ∧
    (∀ p ∈ (initial_state t).lights, p.2.is_on = false) ∧
    (initial_state t).pir.active = false ∧
    (initial_state t).ultra.active = false ∧
    (initial_state t).ultra.last_distance_cm = none ∧
    (initial_state t).dht.temperature = none ∧
    (initial_state t).dht.humidity = none ∧
    (initial_state t).dht.last_update = none ∧
    (initial_state t).modo_seguro = false := by
  refine ⟨rfl, rfl, ?_, rfl, ?_, rfl, rfl, rfl, rfl, rfl, rfl, rfl⟩ <;>
  · intro p hp
    simp only [initial_state, List.mem_cons, List.not_mem_nil, or_false] at hp
    rcases hp with rfl | rfl | rfl <;> rfl

theorem initial_state_defaults_witness :
    (("principal", ({ name := "principal", is_open := false, last_update := 5 } :
        DoorState)) ∈ (initial_state 5).doors) ∧
    ({ name := "principal", is_open := false, last_update := 5 } :
      DoorState).is_open = false := by
  have hmem : (("principal", ({ name := "principal", is_open := false, last_update := 5 } : DoorState)) ∈ (initial_state 5).doors) := by
    decide
  exact ⟨hmem, (initial_state_defaults 5).2.2.1 _ hmem⟩

/-- C7: under a monotonic clock every sub-entity's `last_update` is
non-decreasing along any trace of requests, and in particular opening then
closing a door leaves it closed with a strictly larger timestamp after each
of the two calls (shown for both doors). -/
theorem last_update_monotone :
    (∀ (tr : List (Op × Nat)) (s s' : HouseState) (b : Nat),
      boundedBy s b → traceMono b tr → runTrace s tr = some s' →
      timesLE s s') ∧
    (∀ (s₀ : HouseState) (t₀ t₁ t₂ : Nat) (d₀ : DoorState),
      boundedBy s₀ t₀ → t₀ < t₁ → t₁ < t₂ →
      s₀.doors.lookup "principal" = some d₀ →
      ∃ s₁ s₂ d₁ d₂,
        step .principal_open s₀ t₁ = some s₁ ∧
        step .principal_close s₁ t₂ = some s₂ ∧
        s₁.doors.lookup "principal" = some d₁ ∧
        s₂.doors.lookup "principal" = some d₂ ∧
        d₁.is_open = true ∧ d₁.last_update = t₁ ∧
        d₂.is_open = false ∧ d₂.last_update = t₂ ∧
        d₀.last_update < d₁.last_update ∧
        d₁.last_update < d₂.last_update) ∧
    (∀ (s₀ : HouseState) (t₀ t₁ t₂ : Nat) (d₀ : DoorState),
      boundedBy s₀ t₀ → t₀ < t₁ → t₁ < t₂ →
      s₀.doors.lookup "garage" = some d₀ →
      ∃ s₁ s₂ d₁ d₂,
        step .garage_open s₀ t₁ = some s₁ ∧
        step .garage_close s₁ t₂ = some s₂ ∧
        s₁.doors.lookup "garage" = some d₁ ∧
        s₂.doors.lookup "garage" = some d₂ ∧
        d₁.is_open = true ∧ d₁.last_update = t₁ ∧
        d₂.is_open = false ∧ d₂.last_update = t₂ ∧
        d₀.last_update < d₁.last_update ∧
        d₁.last_update < d₂.last_update) := by
  refine ⟨fun tr s s' b hb hm h => runTrace_timesLE hb hm h, ?_, ?_⟩
  · intro s₀ t₀ t₁ t₂ d₀ hb h01 h12 hlp
    refine ⟨{ s₀ with doors := updKey s₀.doors "principal" (fun x => { x with is_open := true, last_update := t₁ }), modo_seguro := false },
      { s₀ with doors := updKey (updKey s₀.doors "principal" (fun x => { x with is_open := true, last_update := t₁ })) "principal" (fun x => { x with is_open := false, last_update := t₂ }), modo_seguro := false },
      { d₀ with is_open := true, last_update := t₁ },
      { name := d₀.name, is_open := false, last_update := t₂ },
      ?_, ?_, ?_, ?_, rfl, rfl, rfl, rfl, ?_, ?_⟩
    · simp [step, principal_open, hlp]
    · simp [step, principal_close, lookup_updKey, hlp]
    · simp [lookup_updKey, hlp]
    · simp [lookup_updKey, hlp]
    · exact lt_of_le_of_lt (hb.1 ("principal", d₀) (mem_of_lookup_eq_some hlp)) h01
    · exact h12
  · intro s₀ t₀ t₁ t₂ d₀ hb h01 h12 hlp
    refine ⟨{ s₀ with doors := updKey s₀.doors "garage" (fun x => { x with is_open := true, last_update := t₁ }), modo_seguro := false },
      { s₀ with doors := updKey (updKey s₀.doors "garage" (fun x => { x with is_open := true, last_update := t₁ })) "garage" (fun x => { x with is_open := false, last_update := t₂ }), modo_seguro := false },
      { d₀ with is_open := true, last_update := t₁ },
      { name := d₀.name, is_open := false, last_update := t₂ },
      ?_, ?_, ?_, ?_, rfl, rfl, rfl, rfl, ?_, ?_⟩
    · simp [step, garage_open, hlp]
    · simp [step, garage_close, lookup_updKey, hlp]
    · simp [lookup_updKey, hlp]
    · simp [lookup_updKey, hlp]
    · exact lt_of_le_of_lt (hb.1 ("garage", d₀) (mem_of_lookup_eq_some hlp)) h01
    · exact h12

theorem last_update_monotone_witness :
    timesLE (initial_state 0) ((modo_seguro (initial_state 0) 1).2) ∧
    (∃ s₁ s₂ d₁ d₂,
      step .principal_open (initial_state 0) 1 = some s₁ ∧
      step .principal_close s₁ 2 = some s₂ ∧
      s₁.doors.lookup "principal" = some d₁ ∧
      s₂.doors.lookup "principal" = some d₂ ∧
      d₁.is_open = true ∧ d₁.last_update = 1 ∧
      d₂.is_open = false ∧ d₂.last_update = 2 ∧
      ({ name := "principal", is_open := false, last_update := 0 } :
        DoorState).last_update < d₁.last_update ∧
      d₁.last_update < d₂.last_update) :=
  ⟨last_update_monotone.1 [(Op.modo_seguro, 1)] (initial_state 0) _ 0
      (by simp [boundedBy, initial_state]) (by simp [traceMono]) rfl,
    last_update_monotone.2.1 (initial_state 0) 0 1 2
      { name := "principal", is_open := false, last_update := 0 }
      (by simp [boundedBy, initial_state]) (by decide) (by decide) rfl⟩

/-- C8: on every reachable state every mutating request succeeds: the fixed
key sets installed at process start make every hardcoded dictionary lookup
succeed, so no handler can fail. -/
theorem mutating_ops_total (s : HouseState) (hs : Reachable s) (op : Op)
    (t : Nat) : (step op s t).isSome = true := by
  obtain ⟨hkd, hkl⟩ := reachable_hasKeys hs
  obtain ⟨dp, hdp⟩ := Option.isSome_iff_exists.mp
    ((lookup_isSome_iff s.doors "principal").mpr (by rw [hkd]; simp))
  obtain ⟨dg, hdg⟩ := Option.isSome_iff_exists.mp
    ((lookup_isSome_iff s.doors "garage").mpr (by rw [hkd]; simp))
  obtain ⟨lc, hlc⟩ := Option.isSome_iff_exists.mp
    ((lookup_isSome_iff s.lights "cocina").mpr (by rw [hkl]; simp))
  obtain ⟨ls, hls⟩ := Option.isSome_iff_exists.mp
    ((lookup_isSome_iff s.lights "sala").mpr (by rw [hkl]; simp))
  obtain ⟨ld, hld⟩ := Option.isSome_iff_exists.mp
    ((lookup_isSome_iff s.lights "dorm").mpr (by rw [hkl]; simp))
  cases op <;>
    simp [step, principal_open, principal_close, garage_open, garage_close,
      ultra_on, ultra_off, ultra_update_distance, cocina_on, cocina_off,
      sala_on, sala_off, dorm_on, dorm_off, pir_on, pir_off, dht_update,
      modo_seguro, hdp, hdg, hlc, hls, hld]

theorem mutating_ops_total_witness :
    (step Op.principal_open (initial_state 0) 1).isSome = true :=
  mutating_ops_total (initial_state 0) (Reachable.init 0) Op.principal_open 1

/-- C9: the in-memory mutation is decided before the forward and is
independent of the forward's outcome; `send_command_to_esp` never lets an
exception escape, so a failed forward never changes the response or the
state. -/
theorem forward_failure_swallowed (op : Op) (s : HouseState) (t : Nat)
    (flag : Bool) (o : ForwardOutcome) (path : String) :
    send_command_to_esp flag path o = .ok () ∧
    run_op op s t flag o = step op s t := by
  have hsend : ∀ (p : String), send_command_to_esp flag p o = .ok () := by
    intro p
    cases flag
    · rfl
    · cases o <;> rfl
  refine ⟨hsend path, ?_⟩
  cases hstep : step op s t with
  | none => simp [run_op, hstep]
  | some s' =>
    cases hf : forward_path op with
    | none => simp [run_op, hstep, hf]
    | some p => simp [run_op, hstep, hf, hsend]

/-- C10: the safe-mode flag is not an invariant for the safe-mode
configuration: from the state reached right after `/modo/seguro`, the
requests `/ultra/on` and `/pir/off` produce reachable states that still
carry `modo_seguro == true` but whose sensor fields differ from the
post-safe-mode configuration. -/
theorem safe_mode_flag_not_config_invariant :
    Reachable (ultra_on (modo_seguro (initial_state 0) 1).2 2).2 ∧
    (ultra_on (modo_seguro (initial_state 0) 1).2 2).2.modo_seguro = true ∧
    (ultra_on (modo_seguro (initial_state 0) 1).2 2).2.ultra.active = true ∧
    (modo_seguro (initial_state 0) 1).2.ultra.active = false ∧
    Reachable (pir_off (modo_seguro (initial_state 0) 1).2 2).2 ∧
    (pir_off (modo_seguro (initial_state 0) 1).2 2).2.modo_seguro = true ∧
    (pir_off (modo_seguro (initial_state 0) 1).2 2).2.pir.active = false ∧
    (modo_seguro (initial_state 0) 1).2.pir.active = true := by
  refine ⟨?_, rfl, rfl, rfl, ?_, rfl, rfl, rfl⟩
  · exact Reachable.step Op.ultra_on 2
      (Reachable.step Op.modo_seguro 1 (Reachable.init 0) rfl) rfl
  · exact Reachable.step Op.pir_off 2
      (Reachable.step Op.modo_seguro 1 (Reachable.init 0) rfl) rfl

end Esp32
